import Mathlib

/-!
Verification development for the champion-audio-crawler's resumable,
checkpointed processing pipeline.

The definitions below are a shallow embedding of
`src/champion_crawler/models.py`, `state_manager.py`, the stage-gating
logic of `scraper.py` (`download_all_audio`) and `processor.py`
(`process_champion_audio`), and the orchestrator `cli.py:process_champion`.

Modelling conventions:
* The on-disk checkpoint directory is an association list
  `List (String × CheckpointRecord)` (filename stem ↦ serialized record);
  `write_text` of a whole JSON record is an atomic replacement of the entry.
* Timestamps (`datetime.utcnow()` in its two formattings) are passed in as
  opaque strings.
* File contents on disk are represented by their MD5 checksum, so the raw
  audio directory is `List (String × String)` (filename ↦ checksum of the
  bytes currently on disk) and `_calculate_checksum` is a lookup.
* Network and audio-transform side effects are oracles passed as functions.
* Python float division in the ratio gates is modelled by exact `ℚ`
  division (the operands are small integral counts, and `0.5` is exactly
  representable, so the branch taken is the same).
-/

/-- `ChampionStatus` enum from `models.py`. -/
inductive ChampionStatus where
  | pending
  | scraping
  | downloading
  | processing
  | concatenating
  | completed
  | failed
  deriving DecidableEq, Repr

/-- `.value` of the `str`-valued enum members. -/
def ChampionStatus.value : ChampionStatus → String
  | .pending => "pending"
  | .scraping => "scraping"
  | .downloading => "downloading"
  | .processing => "processing"
  | .concatenating => "concatenating"
  | .completed => "completed"
  | .failed => "failed"

/-- `ChampionStatus(s)` construction from a string; `none` models the
`ValueError` raised on an unknown value. -/
def championStatusOfString (s : String) : Option ChampionStatus :=
  if s = "pending" then some .pending
  else if s = "scraping" then some .scraping
  else if s = "downloading" then some .downloading
  else if s = "processing" then some .processing
  else if s = "concatenating" then some .concatenating
  else if s = "completed" then some .completed
  else if s = "failed" then some .failed
  else none

/-- `AudioFile` dataclass from `models.py`.  `to_dict`/`from_dict` are
`asdict`/`cls(**data)`, i.e. the identity in this embedding, so the same
structure doubles as the serialized form. -/
structure AudioFile where
  url : String
  filename : String
  transcript : Option String := none
  downloaded : Bool := false
  processed : Bool := false
  file_size : Option Nat := none
  checksum : Option String := none
  error : Option String := none
  deriving DecidableEq, Repr

/-- The `stats` dict of a `ChampionCheckpoint`.  The source keeps a
`Dict[str, int]` that only ever holds these four keys; an `Option` field
mirrors presence/absence of the key so that `.get(k, d)` defaults stay
faithful. -/
structure Stats where
  total_files : Option Nat := none
  downloaded_files : Option Nat := none
  processed_files : Option Nat := none
  failed_downloads : Option Nat := none
  deriving DecidableEq, Repr

/-- Python truthiness of the `stats` dict: empty iff no key is present. -/
def Stats.isEmptyDict (s : Stats) : Bool :=
  s.total_files.isNone && s.downloaded_files.isNone &&
  s.processed_files.isNone && s.failed_downloads.isNone

/-- The default stats installed by `ChampionCheckpoint.__post_init__` when
`stats` is empty. -/
def defaultStats : Stats :=
  { total_files := some 0, downloaded_files := some 0,
    processed_files := some 0, failed_downloads := some 0 }

/-- `__post_init__`'s `if not self.stats: self.stats = {...}`. -/
def postInitStats (s : Stats) : Stats :=
  if s.isEmptyDict then defaultStats else s

/-- `ChampionCheckpoint` dataclass (in-memory form, stage already an enum). -/
structure ChampionCheckpoint where
  champion_id : String
  champion_name : String
  stage : ChampionStatus
  audio_files : List AudioFile := []
  stats : Stats := {}
  last_checkpoint : String := ""
  error : Option String := none
  deriving DecidableEq, Repr

/-- The JSON record written by `ChampionCheckpoint.to_dict`: identical
fields except `stage` is the enum's string value. -/
structure CheckpointRecord where
  champion_id : String
  champion_name : String
  stage : String
  audio_files : List AudioFile
  stats : Stats
  last_checkpoint : String
  error : Option String
  deriving DecidableEq, Repr

/-- `ChampionCheckpoint.to_dict`. -/
def ChampionCheckpoint.to_dict (c : ChampionCheckpoint) : CheckpointRecord :=
  { champion_id := c.champion_id, champion_name := c.champion_name,
    stage := c.stage.value, audio_files := c.audio_files,
    stats := c.stats, last_checkpoint := c.last_checkpoint, error := c.error }

/-- `ChampionCheckpoint.from_dict` = `cls(**data)` followed by
`__post_init__`: the stage string is converted back to the enum (`none`
models the `ValueError` on an invalid stage), audio-file dicts become
`AudioFile`s (identity here), and empty stats get the zero defaults. -/
def CheckpointRecord.from_dict (r : CheckpointRecord) : Option ChampionCheckpoint :=
  (championStatusOfString r.stage).map fun st =>
    { champion_id := r.champion_id, champion_name := r.champion_name,
      stage := st, audio_files := r.audio_files,
      stats := postInitStats r.stats,
      last_checkpoint := r.last_checkpoint, error := r.error }

/-- `ProgressState` dataclass from `models.py`.  `champions` is an
insertion-ordered dict `champion_id ↦ status string`. -/
structure ProgressState where
  session_id : String
  start_time : String
  last_update : String
  total_champions : Nat := 0
  completed_champions : Nat := 0
  failed_champions : List String := []
  in_progress_champion : Option String := none
  champions : List (String × String) := []
  deriving DecidableEq, Repr

/-- Association-list lookup, modelling dict indexing / file lookup by key. -/
def dictLookup {α : Type} (k : String) : List (String × α) → Option α
  | [] => none
  | (k2, v) :: rest => if k2 = k then some v else dictLookup k rest

/-- Association-list update, modelling `d[k] = v` (or the overwrite of the
file named `k`): replaces the existing entry or appends a new one. -/
def dictInsert {α : Type} (k : String) (v : α) : List (String × α) → List (String × α)
  | [] => [(k, v)]
  | (k2, v2) :: rest =>
    if k2 = k then (k, v) :: rest else (k2, v2) :: dictInsert k v rest

/-- `ProgressState.update_champion_status` from `models.py`. -/
def ProgressState.update_champion_status (p : ProgressState)
    (champion_id : String) (status : ChampionStatus) (nowIso : String) :
    ProgressState :=
  let p := { p with
    champions := dictInsert champion_id status.value p.champions,
    last_update := nowIso }
  if status = .completed then
    let p := { p with completed_champions := p.completed_champions + 1 }
    if p.in_progress_champion = some champion_id then
      { p with in_progress_champion := none }
    else p
  else if status = .failed then
    let p :=
      if champion_id ∈ p.failed_champions then p
      else { p with failed_champions := p.failed_champions ++ [champion_id] }
    if p.in_progress_champion = some champion_id then
      { p with in_progress_champion := none }
    else p
  else if status = .scraping ∨ status = .downloading ∨
          status = .processing ∨ status = .concatenating then
    { p with in_progress_champion := some champion_id }
  else p

/-- The `StateManager`'s persistent state: the `checkpoints/` directory
(one JSON record per champion id) and the in-memory/`progress.json`
`ProgressState` (`none` mirrors `self.progress is None`). -/
structure CrawlerState where
  checkpoints : List (String × CheckpointRecord) := []
  progress : Option ProgressState := none
  deriving DecidableEq, Repr

/-- `ChampionCheckpoint.load` + `StateManager.get_champion_checkpoint`:
read the record file named by the id and parse it.  A missing file yields
`none`; a record with an invalid stage string (never produced by
`to_dict`) also yields `none` here where Python would raise. -/
def get_champion_checkpoint (st : CrawlerState) (champion_id : String) :
    Option ChampionCheckpoint :=
  (dictLookup champion_id st.checkpoints).bind CheckpointRecord.from_dict

/-- `StateManager.save_checkpoint`: stamp `last_checkpoint`, overwrite the
record file keyed by the checkpoint's own `champion_id`
(`ChampionCheckpoint.save`), then — if a progress state is loaded — run
`update_champion_status` and `_save_progress` (which re-stamps
`last_update`). -/
def save_checkpoint (champion_id : String) (checkpoint : ChampionCheckpoint)
    (ts : String) (st : CrawlerState) : CrawlerState :=
  let checkpoint := { checkpoint with last_checkpoint := ts }
  let st := { st with
    checkpoints := dictInsert checkpoint.champion_id checkpoint.to_dict st.checkpoints }
  match st.progress with
  | none => st
  | some p =>
    let p := p.update_champion_status champion_id checkpoint.stage ts
    { st with progress := some { p with last_update := ts } }

/-- First-match in-place update of `StateManager.mark_file_downloaded`'s
`for ... if filename matches: set flags; break` loop. -/
def set_downloaded (filename checksum : String) (file_size : Nat) :
    List AudioFile → List AudioFile
  | [] => []
  | af :: rest =>
    if af.filename = filename then
      { af with downloaded := true, checksum := some checksum,
                file_size := some file_size } :: rest
    else af :: set_downloaded filename checksum file_size rest

/-- `StateManager.mark_file_downloaded`.  The checksum of the file at
`file_path` is passed in (`_calculate_checksum` is a pure function of the
bytes on disk, which this embedding represents by their checksum). -/
def mark_file_downloaded (champion_id filename checksum : String)
    (file_size : Nat) (ts : String) (st : CrawlerState) : CrawlerState :=
  match get_champion_checkpoint st champion_id with
  | none => st
  | some checkpoint =>
    let files := set_downloaded filename checksum file_size checkpoint.audio_files
    let checkpoint := { checkpoint with
      audio_files := files,
      stats := { checkpoint.stats with
        downloaded_files := some (files.countP fun af => af.downloaded) } }
    save_checkpoint champion_id checkpoint ts st

/-- First-match update of `mark_file_processed`'s loop. -/
def set_processed (filename : String) : List AudioFile → List AudioFile
  | [] => []
  | af :: rest =>
    if af.filename = filename then { af with processed := true } :: rest
    else af :: set_processed filename rest

/-- `StateManager.mark_file_processed`. -/
def mark_file_processed (champion_id filename : String) (ts : String)
    (st : CrawlerState) : CrawlerState :=
  match get_champion_checkpoint st champion_id with
  | none => st
  | some checkpoint =>
    let files := set_processed filename checkpoint.audio_files
    let checkpoint := { checkpoint with
      audio_files := files,
      stats := { checkpoint.stats with
        processed_files := some (files.countP fun af => af.processed) } }
    save_checkpoint champion_id checkpoint ts st

/-- First-match update of `mark_file_failed`'s loop. -/
def set_file_error (filename err : String) : List AudioFile → List AudioFile
  | [] => []
  | af :: rest =>
    if af.filename = filename then { af with error := some err } :: rest
    else af :: set_file_error filename err rest

/-- `StateManager.mark_file_failed`. -/
def mark_file_failed (champion_id filename err : String) (ts : String)
    (st : CrawlerState) : CrawlerState :=
  match get_champion_checkpoint st champion_id with
  | none => st
  | some checkpoint =>
    let files := set_file_error filename err checkpoint.audio_files
    let checkpoint := { checkpoint with
      audio_files := files,
      stats := { checkpoint.stats with
        failed_downloads := some (files.countP fun af => af.error.isSome) } }
    save_checkpoint champion_id checkpoint ts st

/-- `StateManager.mark_champion_completed`. -/
def mark_champion_completed (champion_id : String) (ts : String)
    (st : CrawlerState) : CrawlerState :=
  match get_champion_checkpoint st champion_id with
  | none => st
  | some checkpoint =>
    save_checkpoint champion_id { checkpoint with stage := .completed } ts st

/-- `StateManager.mark_champion_failed`. -/
def mark_champion_failed (champion_id err : String) (ts : String)
    (st : CrawlerState) : CrawlerState :=
  match get_champion_checkpoint st champion_id with
  | none => st
  | some checkpoint =>
    save_checkpoint champion_id
      { checkpoint with stage := .failed, error := some err } ts st

/-- `StateManager.update_champion_stage`. -/
def update_champion_stage (champion_id : String) (stage : ChampionStatus)
    (ts : String) (st : CrawlerState) : CrawlerState :=
  match get_champion_checkpoint st champion_id with
  | none => st
  | some checkpoint =>
    save_checkpoint champion_id { checkpoint with stage := stage } ts st

/-- Python truthiness of an `Optional[str]` (`None` and `""` are falsy). -/
def truthy (o : Option String) : Bool := o.getD "" != ""

/-- `StateManager.verify_file_integrity`: the file system is the map
filename ↦ checksum-of-bytes-on-disk, so existence is a successful lookup
and `_calculate_checksum` returns the stored value. -/
def verify_file_integrity (fs : List (String × String))
    (filename expected : String) : Bool :=
  match dictLookup filename fs with
  | none => false
  | some c => c = expected

/-- The loop body of `StateManager.verify_downloads` over the checkpoint's
audio files. -/
def needs_redownload_list (fs : List (String × String)) :
    List AudioFile → List String
  | [] => []
  | af :: rest =>
    if af.downloaded = false then needs_redownload_list fs rest
    else if dictLookup af.filename fs = none then
      af.filename :: needs_redownload_list fs rest
    else if truthy af.checksum &&
            !(verify_file_integrity fs af.filename (af.checksum.getD "")) then
      af.filename :: needs_redownload_list fs rest
    else needs_redownload_list fs rest

/-- `StateManager.verify_downloads` (the `output_dir / champion_id / "raw"`
prefix is fixed, so `fs` is keyed by bare filename). -/
def verify_downloads (champion_id : String) (fs : List (String × String))
    (st : CrawlerState) : List String :=
  match get_champion_checkpoint st champion_id with
  | none => []
  | some checkpoint => needs_redownload_list fs checkpoint.audio_files

/-- The mutable world of one download run: the persistent crawler state and
the raw-audio directory (filename ↦ checksum of the bytes on disk). -/
structure World where
  state : CrawlerState
  rawFiles : List (String × String) := []
  deriving DecidableEq, Repr

/-- Outcome of `self.session.get(url)` plus the file write, summarized as
the checksum and byte size of the downloaded content, or the exception
text. -/
def FetchOracle : Type := String → Except String (String × Nat)

/-- `WikiScraper.download_audio_file`: skip when already downloaded, on
disk, and integrity-verified; otherwise fetch, write the file, and mark it
downloaded (success) or failed (exception). -/
def download_audio_file (champion_id : String) (fetch : FetchOracle)
    (af : AudioFile) (ts : String) (w : World) : World × Bool :=
  if af.downloaded = true ∧ (dictLookup af.filename w.rawFiles).isSome ∧
     truthy af.checksum = true ∧
     verify_file_integrity w.rawFiles af.filename (af.checksum.getD "") = true then
    (w, true)
  else
    match fetch af.url with
    | .ok (checksum, file_size) =>
      let raw := dictInsert af.filename checksum w.rawFiles
      ({ state := mark_file_downloaded champion_id af.filename checksum
                    file_size ts w.state,
         rawFiles := raw }, true)
    | .error e =>
      ({ w with state := mark_file_failed champion_id af.filename
                  ("Download failed: " ++ e) ts w.state }, false)

/-- The per-file loop of `WikiScraper.download_all_audio`.  Besides the
final world it returns the audio files for which `download_audio_file`
was actually invoked (the non-skipped ones), as an observable trace. -/
def download_loop (champion_id : String) (fetch : FetchOracle)
    (needs_redownload : List String) (ts : String) :
    List AudioFile → World → World × List AudioFile
  | [], w => (w, [])
  | af :: rest, w =>
    if af.downloaded = true ∧ af.filename ∉ needs_redownload then
      download_loop champion_id fetch needs_redownload ts rest w
    else
      let w1 := (download_audio_file champion_id fetch af ts w).1
      let (w2, attempted) :=
        download_loop champion_id fetch needs_redownload ts rest w1
      (w2, af :: attempted)

/-- `scraper.py` lines 393–418: reload the checkpoint after the batch,
compute `downloaded / total` and compare against `0.5`; below the gate the
champion is marked failed, otherwise the stage advances to `processing`.
The numeric percentage suffix `(...%)` of the failure message is elided
(it is digits, a dot and a percent sign, and never contains a `/`). -/
def download_gate (champion_id : String) (ts : String) (w : World) :
    World × Bool :=
  match get_champion_checkpoint w.state champion_id with
  | none =>
    let st' := mark_champion_failed champion_id
      "Failed to reload checkpoint after downloads" ts w.state
    ({ w with state := st' }, false)
  | some checkpoint =>
    let downloaded := checkpoint.stats.downloaded_files.getD 0
    let total := checkpoint.stats.total_files.getD 1
    if (downloaded : ℚ) / (total : ℚ) < 0.5 then
      let st' := mark_champion_failed champion_id
        (s!"Only {downloaded}/{total} files downloaded") ts w.state
      ({ w with state := st' }, false)
    else
      let st' := save_checkpoint champion_id
        { checkpoint with stage := .processing } ts w.state
      ({ w with state := st' }, true)

/-- `WikiScraper.download_all_audio`. -/
def download_all_audio (champion_id : String)
    (checkpoint : ChampionCheckpoint) (fetch : FetchOracle) (ts : String)
    (w : World) : World × Bool :=
  let needs_redownload := verify_downloads champion_id w.rawFiles w.state
  let w1 := (download_loop champion_id fetch needs_redownload ts
              checkpoint.audio_files w).1
  download_gate champion_id ts w1

/-- Outcome of `AudioProcessor.process_audio_file` for one file (success
iff the returned `ProcessingResult.success`). -/
def TransformOracle : Type := AudioFile → Bool

/-- The per-file loop of `AudioProcessor.process_champion_audio`: skip
already-processed and not-downloaded files, otherwise transform and mark
processed on success (a failure only logs). -/
def process_loop (champion_id : String) (transform : TransformOracle)
    (ts : String) : List AudioFile → CrawlerState → CrawlerState
  | [], st => st
  | af :: rest, st =>
    if af.processed = true then process_loop champion_id transform ts rest st
    else if af.downloaded = false then
      process_loop champion_id transform ts rest st
    else if transform af then
      process_loop champion_id transform ts rest
        (mark_file_processed champion_id af.filename ts st)
    else process_loop champion_id transform ts rest st

/-- `AudioProcessor.process_champion_audio` (`processor.py` 195–276):
set stage `processing`, run the loop over the passed checkpoint's files,
reload, and gate on `processed / total < 0.5`.  As in `download_gate`, the
percentage suffix of the failure message is elided. -/
def process_champion_audio (champion_id : String)
    (checkpoint : ChampionCheckpoint) (transform : TransformOracle)
    (ts : String) (st : CrawlerState) : CrawlerState × Bool :=
  let st := update_champion_stage champion_id .processing ts st
  let st := process_loop champion_id transform ts checkpoint.audio_files st
  match get_champion_checkpoint st champion_id with
  | none => (st, false)
  | some reloaded =>
    let processed := reloaded.stats.processed_files.getD 0
    let total := reloaded.stats.total_files.getD 1
    if (processed : ℚ) / (total : ℚ) < 0.5 then
      (mark_champion_failed champion_id
        (s!"Only {processed}/{total} files processed") ts st, false)
    else
      (update_champion_stage champion_id .concatenating ts st, true)

/-- `champion_name.lower().replace(APOS, "").replace(" ", "")` where
`APOS` is the apostrophe (code point 39): lower-case every character,
then drop apostrophes and spaces (replacing a one-character pattern by
the empty string is exactly a filter). -/
def canonical_id (champion_name : String) : String :=
  String.mk ((champion_name.data.map Char.toLower).filter
    fun c => !(c = Char.ofNat 39 || c = ' '))

/-- `cli.py:process_champion`, with the four stage executors passed as
functions (`scrape_champion_audio`, `download_all_audio`,
`process_champion_audio`, `concatenate_champion`) and the cooperative
`session.should_continue()` flag as a constant of the run.  Returns the
resulting store and the boolean the Python function returns. -/
def process_champion (champion_name : String) (should_continue : Bool)
    (scrapeExec : CrawlerState → CrawlerState × Option ChampionCheckpoint)
    (downloadExec : ChampionCheckpoint → CrawlerState → CrawlerState × Bool)
    (processExec : ChampionCheckpoint → CrawlerState → CrawlerState × Bool)
    (concatExec : ChampionCheckpoint → CrawlerState → CrawlerState × Bool)
    (st : CrawlerState) : CrawlerState × Bool :=
  if should_continue = false then (st, false) else
  let champion_id := canonical_id champion_name
  let checkpoint := get_champion_checkpoint st champion_id
  if checkpoint.map (·.stage) = some .completed then (st, true) else
  -- Step 1: scrape
  let (st1, ok1) :=
    if checkpoint.isNone ∨ checkpoint.map (·.stage) = some .pending then
      let (st', ck) := scrapeExec st
      (st', ck.isSome && should_continue)
    else (st, true)
  if ok1 = false then (st1, false) else
  -- Step 2: download
  let (st2, ok2) :=
    match get_champion_checkpoint st1 champion_id with
    | some cp =>
      if cp.stage = ChampionStatus.downloading then
        let (st', s) := downloadExec cp st1
        (st', s && should_continue)
      else (st1, true)
    | none => (st1, true)
  if ok2 = false then (st2, false) else
  -- Step 3: process
  let (st3, ok3) :=
    match get_champion_checkpoint st2 champion_id with
    | some cp =>
      if cp.stage = ChampionStatus.processing then
        let (st', s) := processExec cp st2
        (st', s && should_continue)
      else (st2, true)
    | none => (st2, true)
  if ok3 = false then (st3, false) else
  -- Step 4: concatenate
  let (st4, ok4) :=
    match get_champion_checkpoint st3 champion_id with
    | some cp =>
      if cp.stage = ChampionStatus.concatenating then concatExec cp st3
      else (st3, true)
    | none => (st3, true)
  if ok4 = false then (st4, false) else
  (st4, true)

/-- The `progress.json` file as seen by `load_progress`: absent, present
but unparsable, or present with a valid record. -/
inductive ProgressFile where
  | absent
  | corrupt
  | valid (p : ProgressState)
  deriving DecidableEq, Repr

/-- `StateManager.load_progress`.  `nowCompact` is
`utcnow().strftime("%Y%m%d_%H%M%S")` and `nowIso` is
`utcnow().isoformat()`, passed pre-formatted.  `Except.error ()` models
the exception `json.loads`/`from_dict` raises on an unparsable file; the
second component of a success is the progress file after the call. -/
def load_progress (file : ProgressFile) (nowCompact nowIso : String) :
    Except Unit (ProgressState × ProgressFile) :=
  match file with
  | .valid p => .ok (p, .valid p)
  | .corrupt => .error ()
  | .absent =>
    let p : ProgressState :=
      { session_id := nowCompact, start_time := nowIso, last_update := nowIso }
    -- `_save_progress` re-stamps `last_update` and writes the file
    let p := { p with last_update := nowIso }
    .ok (p, .valid p)

/-- Does `text` start with `pat`? (helper for substring matching). -/
def startsWithChars : List Char → List Char → Bool
  | _, [] => true
  | [], _ :: _ => false
  | a :: as, b :: bs => (a = b) && startsWithChars as bs

/-- Does `text` contain `pat` as a contiguous run? -/
def hasSubtext : List Char → List Char → Bool
  | [], pat => pat.isEmpty
  | text@(_ :: rest), pat => startsWithChars text pat || hasSubtext rest pat

/-- Substring containment on strings ("the error message mentions ..."). -/
def mentionsStr (s pat : String) : Bool := hasSubtext s.data pat.data


/-! ### Helper lemmas -/

theorem dictLookup_insert_self {α : Type} (k : String) (v : α)
    (l : List (String × α)) : dictLookup k (dictInsert k v l) = some v := by
  induction l with
  | nil => simp [dictInsert, dictLookup]
  | cons hd tl ih =>
    obtain ⟨k2, v2⟩ := hd
    by_cases h : k2 = k
    · simp [dictInsert, h, dictLookup]
    · simp [dictInsert, h, dictLookup, ih]

theorem dictLookup_insert_ne {α : Type} (k k2 : String) (v : α)
    (l : List (String × α)) (h : k2 ≠ k) :
    dictLookup k (dictInsert k2 v l) = dictLookup k l := by
  induction l with
  | nil => simp [dictInsert, dictLookup, h]
  | cons hd tl ih =>
    obtain ⟨k3, v3⟩ := hd
    by_cases h3 : k3 = k2
    · subst h3
      simp [dictInsert, dictLookup, h]
    · by_cases h4 : k3 = k <;>
        simp [dictInsert, dictLookup, h3, h4, Ne.symm h, ih]

theorem dictInsert_idem {α : Type} (k : String) (v : α)
    (l : List (String × α)) :
    dictInsert k v (dictInsert k v l) = dictInsert k v l := by
  induction l with
  | nil => simp [dictInsert]
  | cons hd tl ih =>
    obtain ⟨k2, v2⟩ := hd
    by_cases h : k2 = k
    · simp [dictInsert, h]
    · simp [dictInsert, h, ih]

theorem statusOfString_value (s : ChampionStatus) :
    championStatusOfString s.value = some s := by
  cases s <;> rfl

theorem from_dict_to_dict (c : ChampionCheckpoint) :
    c.to_dict.from_dict = some { c with stats := postInitStats c.stats } := by
  simp [ChampionCheckpoint.to_dict, CheckpointRecord.from_dict,
    statusOfString_value]

theorem postInitStats_of_ne (s : Stats) (h : s.isEmptyDict = false) :
    postInitStats s = s := by
  simp [postInitStats, h]

theorem isEmptyDict_false_of_downloaded (s : Stats) (n : Nat) :
    ({ s with downloaded_files := some n } : Stats).isEmptyDict = false := by
  simp [Stats.isEmptyDict]

theorem isEmptyDict_false_of_processed (s : Stats) (n : Nat) :
    ({ s with processed_files := some n } : Stats).isEmptyDict = false := by
  simp [Stats.isEmptyDict]

theorem save_checkpoint_checkpoints (champion_id : String)
    (cp : ChampionCheckpoint) (ts : String) (st : CrawlerState) :
    (save_checkpoint champion_id cp ts st).checkpoints =
      dictInsert cp.champion_id ({ cp with last_checkpoint := ts}).to_dict
        st.checkpoints := by
  unfold save_checkpoint
  cases h : st.progress <;> simp [h]

theorem get_save_self (champion_id : String) (cp : ChampionCheckpoint)
    (ts : String) (st : CrawlerState) (hid : cp.champion_id = champion_id) :
    get_champion_checkpoint (save_checkpoint champion_id cp ts st)
        champion_id =
      some { cp with last_checkpoint := ts,
                     stats := postInitStats cp.stats } := by
  unfold get_champion_checkpoint
  rw [save_checkpoint_checkpoints, hid]
  rw [dictLookup_insert_self]
  simp [from_dict_to_dict]

theorem get_save_ne (champion_id other : String) (cp : ChampionCheckpoint)
    (ts : String) (st : CrawlerState) (hid : cp.champion_id ≠ other) :
    get_champion_checkpoint (save_checkpoint champion_id cp ts st) other =
      get_champion_checkpoint st other := by
  unfold get_champion_checkpoint
  rw [save_checkpoint_checkpoints, dictLookup_insert_ne _ _ _ _ hid]

theorem set_downloaded_idem (fn ck : String) (sz : Nat)
    (l : List AudioFile) :
    set_downloaded fn ck sz (set_downloaded fn ck sz l) =
      set_downloaded fn ck sz l := by
  induction l with
  | nil => rfl
  | cons af rest ih =>
    by_cases h : af.filename = fn
    · simp [set_downloaded, h]
    · simp [set_downloaded, h, ih]

/-- The checkpoint produced by the body of `mark_file_downloaded` before
saving: first matching file flagged, `downloaded_files` recomputed by
counting flags. -/
def mark_downloaded_checkpoint (fn ck : String) (sz : Nat)
    (cp : ChampionCheckpoint) : ChampionCheckpoint :=
  let files := set_downloaded fn ck sz cp.audio_files
  { cp with
      audio_files := files,
      stats := { cp.stats with
                   downloaded_files := some (files.countP fun af => af.downloaded) } }

theorem mark_file_downloaded_of_none (champion_id fn ck : String) (sz : Nat)
    (ts : String) (st : CrawlerState)
    (h : get_champion_checkpoint st champion_id = none) :
    mark_file_downloaded champion_id fn ck sz ts st = st := by
  unfold mark_file_downloaded
  rw [h]

theorem mark_file_downloaded_of_some (champion_id fn ck : String) (sz : Nat)
    (ts : String) (st : CrawlerState) (cp : ChampionCheckpoint)
    (h : get_champion_checkpoint st champion_id = some cp) :
    mark_file_downloaded champion_id fn ck sz ts st =
      save_checkpoint champion_id (mark_downloaded_checkpoint fn ck sz cp)
        ts st := by
  unfold mark_file_downloaded
  rw [h]
  rfl

theorem mark_downloaded_checkpoint_id (fn ck : String) (sz : Nat)
    (cp : ChampionCheckpoint) :
    (mark_downloaded_checkpoint fn ck sz cp).champion_id = cp.champion_id :=
  rfl

theorem postInitStats_mark_downloaded (fn ck : String) (sz : Nat)
    (cp : ChampionCheckpoint) :
    postInitStats (mark_downloaded_checkpoint fn ck sz cp).stats =
      (mark_downloaded_checkpoint fn ck sz cp).stats := by
  simp [mark_downloaded_checkpoint, postInitStats, Stats.isEmptyDict]

theorem mark_downloaded_checkpoint_stable (fn ck : String) (sz : Nat)
    (ts : String) (cp : ChampionCheckpoint) :
    mark_downloaded_checkpoint fn ck sz
        { mark_downloaded_checkpoint fn ck sz cp with last_checkpoint := ts } =
      { mark_downloaded_checkpoint fn ck sz cp with last_checkpoint := ts } := by
  simp [mark_downloaded_checkpoint, set_downloaded_idem]

/-- C5, the idempotent-mutation property: a second
`mark_file_downloaded` with the same arguments leaves every persisted
checkpoint — in particular the stats, which are recomputed by counting
`downloaded` flags rather than incremented — exactly as after the first
call. -/
theorem markSubItemFetched_idempotent (champion_id fn ck : String)
    (sz : Nat) (ts : String) (st : CrawlerState) :
    (mark_file_downloaded champion_id fn ck sz ts
        (mark_file_downloaded champion_id fn ck sz ts st)).checkpoints =
      (mark_file_downloaded champion_id fn ck sz ts st).checkpoints := by
  cases h : get_champion_checkpoint st champion_id with
  | none =>
    rw [mark_file_downloaded_of_none _ _ _ _ _ _ h,
        mark_file_downloaded_of_none _ _ _ _ _ _ h]
  | some cp =>
    rw [mark_file_downloaded_of_some _ _ _ _ _ _ _ h]
    by_cases hid : cp.champion_id = champion_id
    · have hget2 : get_champion_checkpoint
          (save_checkpoint champion_id (mark_downloaded_checkpoint fn ck sz cp)
            ts st) champion_id =
          some { mark_downloaded_checkpoint fn ck sz cp with
                   last_checkpoint := ts } := by
        rw [get_save_self _ _ _ _ ((mark_downloaded_checkpoint_id fn ck sz cp).trans hid)]
        rw [postInitStats_mark_downloaded]
      rw [mark_file_downloaded_of_some _ _ _ _ _ _ _ hget2]
      rw [mark_downloaded_checkpoint_stable]
      rw [save_checkpoint_checkpoints, save_checkpoint_checkpoints]
      simp only [ChampionCheckpoint.mk.injEq]
      exact dictInsert_idem _ _ _
    · have hget2 : get_champion_checkpoint
          (save_checkpoint champion_id (mark_downloaded_checkpoint fn ck sz cp)
            ts st) champion_id =
          some cp := by
        rw [get_save_ne _ _ _ _ _ ((mark_downloaded_checkpoint_id fn ck sz cp).trans_ne hid)]
        exact h
      rw [mark_file_downloaded_of_some _ _ _ _ _ _ _ hget2]
      rw [save_checkpoint_checkpoints, save_checkpoint_checkpoints]
      exact dictInsert_idem _ _ _

theorem get_champion_checkpoint_of_absent (st : CrawlerState) (cid : String)
    (h : dictLookup cid st.checkpoints = none) :
    get_champion_checkpoint st cid = none := by
  unfold get_champion_checkpoint
  rw [h]
  rfl

/-- C10: the three per-file mark operations are silent no-ops when the
champion has no persisted checkpoint: no exception (the functions are
total), no state created or modified. -/
theorem mark_ops_noop_without_checkpoint (champion_id fn ck err : String)
    (sz : Nat) (ts : String) (st : CrawlerState)
    (h : dictLookup champion_id st.checkpoints = none) :
    mark_file_downloaded champion_id fn ck sz ts st = st ∧
    mark_file_processed champion_id fn ts st = st ∧
    mark_file_failed champion_id fn err ts st = st := by
  have hg := get_champion_checkpoint_of_absent st champion_id h
  refine ⟨mark_file_downloaded_of_none _ _ _ _ _ _ hg, ?_, ?_⟩
  · unfold mark_file_processed
    rw [hg]
  · unfold mark_file_failed
    rw [hg]

/-- Witness for C10 at the empty store. -/
theorem mark_ops_noop_without_checkpoint_witness :
    mark_file_downloaded "ahri" "f.ogg" "c" 3 "t" {} = {} ∧
    mark_file_processed "ahri" "f.ogg" "t" {} = {} ∧
    mark_file_failed "ahri" "f.ogg" "e" "t" {} = {} :=
  mark_ops_noop_without_checkpoint "ahri" "f.ogg" "c" "e" 3 "t" {} rfl

/-- A checkpoint persisted in the `failed` terminal stage. -/
def cpTerminalFailed : ChampionCheckpoint :=
  { champion_id := "zed", champion_name := "Zed", stage := .failed,
    audio_files := [], stats := defaultStats, last_checkpoint := "t0",
    error := some "boom" }

/-- A store holding only `cpTerminalFailed`. -/
def stTerminal : CrawlerState :=
  { checkpoints := [("zed", cpTerminalFailed.to_dict)], progress := none }

/-- C3 counterexample: `update_champion_stage` performs an unconditional
stage overwrite, so it does move a checkpoint whose stage is the terminal
`failed` back to `processing` — the per-operation claim is false. -/
theorem setStage_escapes_terminal_counterexample :
    (get_champion_checkpoint stTerminal "zed").map (fun c => c.stage) =
        some .failed ∧
      (get_champion_checkpoint
          (update_champion_stage "zed" .processing "t1" stTerminal)
          "zed").map (fun c => c.stage) = some .processing := by
  decide

/-- C3 amended: the stage-overwrite operations themselves have no
terminal-state guard, but the orchestrator never exits a terminal stage:
`process_champion` on an item whose checkpoint is `completed` or `failed`
invokes no stage executor and leaves the store unchanged (short of an
explicit store reset, no pipeline path leaves a terminal stage). -/
theorem orchestrator_preserves_terminal (champion_name : String)
    (scrapeExec : CrawlerState → CrawlerState × Option ChampionCheckpoint)
    (downloadExec processExec concatExec :
      ChampionCheckpoint → CrawlerState → CrawlerState × Bool)
    (st : CrawlerState) (cp : ChampionCheckpoint)
    (hcp : get_champion_checkpoint st (canonical_id champion_name) = some cp)
    (hterm : cp.stage = .completed ∨ cp.stage = .failed) :
    process_champion champion_name true scrapeExec downloadExec processExec
      concatExec st = (st, true) := by
  rcases hterm with hs | hs <;>
    · unfold process_champion
      simp [hcp, hs]

/-- Witness executors that would be observable if ever invoked. -/
def trivialScrape : CrawlerState → CrawlerState × Option ChampionCheckpoint :=
  fun st => (st, none)

/-- Witness executor that reports failure if ever invoked. -/
def trivialExec : ChampionCheckpoint → CrawlerState → CrawlerState × Bool :=
  fun _ st => (st, false)

/-- Witness for the amended C3 at the concrete failed checkpoint. -/
theorem orchestrator_preserves_terminal_witness :
    process_champion "zed" true trivialScrape trivialExec trivialExec
      trivialExec stTerminal = (stTerminal, true) :=
  orchestrator_preserves_terminal "zed" trivialScrape trivialExec trivialExec
    trivialExec stTerminal cpTerminalFailed (by decide) (Or.inr (by decide))

/-- C7: a Work Item whose persisted stage is `completed` is skipped
entirely on a re-run: no executor is invoked (the result does not depend
on them), the store is untouched, and the run reports success. -/
theorem completed_item_rerun_skipped (champion_name : String)
    (scrapeExec : CrawlerState → CrawlerState × Option ChampionCheckpoint)
    (downloadExec processExec concatExec :
      ChampionCheckpoint → CrawlerState → CrawlerState × Bool)
    (st : CrawlerState) (cp : ChampionCheckpoint)
    (hcp : get_champion_checkpoint st (canonical_id champion_name) = some cp)
    (hdone : cp.stage = .completed) :
    process_champion champion_name true scrapeExec downloadExec processExec
      concatExec st = (st, true) := by
  unfold process_champion
  simp [hcp, hdone]

/-- A checkpoint persisted in the `completed` terminal stage. -/
def cpTerminalCompleted : ChampionCheckpoint :=
  { champion_id := "lux", champion_name := "Lux", stage := .completed,
    audio_files := [], stats := defaultStats, last_checkpoint := "t0",
    error := none }

/-- A store holding only `cpTerminalCompleted`. -/
def stCompleted : CrawlerState :=
  { checkpoints := [("lux", cpTerminalCompleted.to_dict)], progress := none }

/-- Witness for C7 at the concrete completed checkpoint. -/
theorem completed_item_rerun_skipped_witness :
    process_champion "lux" true trivialScrape trivialExec trivialExec
      trivialExec stCompleted = (stCompleted, true) :=
  completed_item_rerun_skipped "lux" trivialScrape trivialExec trivialExec
    trivialExec stCompleted cpTerminalCompleted (by decide) (by decide)

theorem rate_lt_half_iff (k N : Nat) (hN : 0 < N) :
    ((k : ℚ) / (N : ℚ) < 0.5) ↔ 2 * k < N := by
  have hNQ : (0 : ℚ) < N := by exact_mod_cast hN
  rw [div_lt_iff₀ hNQ]
  rw [show (0.5 : ℚ) = 1 / 2 by norm_num]
  constructor
  · intro h
    have h2 : (2 : ℚ) * k < N := by linarith
    exact_mod_cast h2
  · intro h
    have h2 : (2 : ℚ) * k < N := by exact_mod_cast h
    linarith

theorem mark_champion_failed_of_some (champion_id err ts : String)
    (st : CrawlerState) (cp : ChampionCheckpoint)
    (h : get_champion_checkpoint st champion_id = some cp) :
    mark_champion_failed champion_id err ts st =
      save_checkpoint champion_id
        { cp with stage := .failed, error := some err } ts st := by
  unfold mark_champion_failed
  rw [h]

theorem get_mark_champion_failed (champion_id err ts : String)
    (st : CrawlerState) (cp : ChampionCheckpoint)
    (h : get_champion_checkpoint st champion_id = some cp)
    (hid : cp.champion_id = champion_id) :
    get_champion_checkpoint (mark_champion_failed champion_id err ts st)
        champion_id =
      some { cp with stage := .failed, error := some err,
                     last_checkpoint := ts,
                     stats := postInitStats cp.stats } := by
  rw [mark_champion_failed_of_some _ _ _ _ _ h]
  exact get_save_self _ _ _ _ hid

/-- C2, the download ratio gate (`scraper.py` 401–418): with `N`
sub-items recorded in `total_files` and `k` in `downloaded_files`,
`floor(0.5*N) - 1` successes fail the item and `ceil(0.5*N)` successes
advance it to `processing`; the comparison performed is
`downloaded / total < 0.5`. -/
theorem download_ratio_gate (champion_id ts : String) (w : World)
    (cp : ChampionCheckpoint) (N k : Nat)
    (hcp : get_champion_checkpoint w.state champion_id = some cp)
    (hid : cp.champion_id = champion_id)
    (htot : cp.stats.total_files = some N)
    (hdl : cp.stats.downloaded_files = some k)
    (hN : 2 ≤ N) :
    (k = N / 2 - 1 →
      (get_champion_checkpoint (download_gate champion_id ts w).1.state
          champion_id).map (fun c => c.stage) = some .failed ∧
        (download_gate champion_id ts w).2 = false) ∧
    (k = (N + 1) / 2 →
      (get_champion_checkpoint (download_gate champion_id ts w).1.state
          champion_id).map (fun c => c.stage) = some .processing ∧
        (download_gate champion_id ts w).2 = true) := by
  have hN0 : 0 < N := by omega
  constructor
  · intro hk
    have hlt : ((k : ℚ) / (N : ℚ) < 0.5) :=
      (rate_lt_half_iff k N hN0).mpr (by omega)
    have hgate : download_gate champion_id ts w =
        ({ w with
             state := mark_champion_failed champion_id
               (s!"Only {k}/{N} files downloaded") ts w.state }, false) := by
      unfold download_gate
      rw [hcp]
      simp only [htot, hdl, Option.getD_some]
      rw [if_pos hlt]
    rw [hgate]
    refine ⟨?_, rfl⟩
    rw [get_mark_champion_failed _ _ _ _ _ hcp hid]
    rfl
  · intro hk
    have hge : ¬ ((k : ℚ) / (N : ℚ) < 0.5) := fun hlt =>
      absurd ((rate_lt_half_iff k N hN0).mp hlt) (by omega)
    have hgate : download_gate champion_id ts w =
        ({ w with
             state := save_checkpoint champion_id
               { cp with stage := .processing } ts w.state }, true) := by
      unfold download_gate
      rw [hcp]
      simp only [htot, hdl, Option.getD_some]
      rw [if_neg hge]
    rw [hgate]
    refine ⟨?_, rfl⟩
    have := get_save_self champion_id { cp with stage := .processing } ts
      w.state hid
    rw [this]
    rfl

/-- A checkpoint with 4 sub-items at the downloading stage, one download
recorded. -/
def cpGateFailing : ChampionCheckpoint :=
  { champion_id := "gatec", champion_name := "GateC", stage := .downloading,
    audio_files := [],
    stats := { total_files := some 4, downloaded_files := some 1,
               processed_files := some 0, failed_downloads := some 0 },
    last_checkpoint := "t0", error := none }

/-- A world holding `cpGateFailing`. -/
def wGate : World :=
  { state := { checkpoints := [("gatec", cpGateFailing.to_dict)],
               progress := none },
    rawFiles := [] }

/-- Witness for C2 at `N = 4`: `floor(0.5*4) - 1 = 1` success marks the
item failed. -/
theorem download_ratio_gate_witness :
    (get_champion_checkpoint (download_gate "gatec" "t1" wGate).1.state
        "gatec").map (fun c => c.stage) = some .failed ∧
      (download_gate "gatec" "t1" wGate).2 = false :=
  (download_ratio_gate "gatec" "t1" wGate cpGateFailing 4 1 (by decide)
    (by decide) (by decide) (by decide) (by decide)).1 (by decide)

/-- The fresh `ProgressState` that `load_progress` creates for a new
session. -/
def freshProgress (nowCompact nowIso : String) : ProgressState :=
  { session_id := nowCompact, start_time := nowIso, last_update := nowIso }

/-- A sequence of `update_champion_status` calls, applied in order
(each triple is champion id, status, timestamp). -/
def apply_status_updates (p : ProgressState)
    (updates : List (String × ChampionStatus × String)) : ProgressState :=
  updates.foldl (fun q u => q.update_champion_status u.1 u.2.1 u.2.2) p

theorem failed_champions_update (p : ProgressState) (cid : String)
    (s : ChampionStatus) (ts : String) :
    (p.update_champion_status cid s ts).failed_champions =
      if s = .failed ∧ cid ∉ p.failed_champions
      then p.failed_champions ++ [cid] else p.failed_champions := by
  unfold ProgressState.update_champion_status
  cases s <;> simp <;> split <;> (try split) <;> simp_all

theorem mem_failed_update (p : ProgressState) (cid : String)
    (s : ChampionStatus) (ts x : String) :
    x ∈ (p.update_champion_status cid s ts).failed_champions ↔
      x ∈ p.failed_champions ∨ (s = .failed ∧ cid = x) := by
  rw [failed_champions_update]
  by_cases hs : s = ChampionStatus.failed <;>
    by_cases hmem : cid ∈ p.failed_champions <;>
      by_cases hx : cid = x <;> simp_all
  exact fun h => hx h.symm

theorem mem_failed_apply_updates
    (updates : List (String × ChampionStatus × String)) (p : ProgressState)
    (x : String) :
    x ∈ (apply_status_updates p updates).failed_champions ↔
      x ∈ p.failed_champions ∨
        ∃ ts, (x, ChampionStatus.failed, ts) ∈ updates := by
  induction updates generalizing p with
  | nil => simp [apply_status_updates]
  | cons u rest ih =>
    obtain ⟨cid, s, ts0⟩ := u
    show x ∈ (apply_status_updates
      (p.update_champion_status cid s ts0) rest).failed_champions ↔ _
    rw [ih, mem_failed_update]
    constructor
    · rintro (⟨hmem | ⟨hs, hcid⟩⟩ | ⟨ts, hts⟩)
      · exact Or.inl hmem
      · exact Or.inr ⟨ts0, by simp [hs, hcid]⟩
      · exact Or.inr ⟨ts, List.mem_cons_of_mem _ hts⟩
    · rintro (hmem | ⟨ts, hts⟩)
      · exact Or.inl (Or.inl hmem)
      · rcases List.mem_cons.mp hts with heq | hrest
        · have h1 : cid = x := by
            have := congrArg (fun t => t.1) heq
            simpa using this.symm
          have h2 : s = ChampionStatus.failed := by
            have := congrArg (fun t => t.2.1) heq
            simpa using this.symm
          exact Or.inl (Or.inr ⟨h2, h1⟩)
        · exact Or.inr ⟨ts, hrest⟩

/-- C4 counterexample: starting from a fresh session, marking an item
`failed` and then `completed` leaves it recorded as completed in the
per-item status map while it is still present in the failed-items list —
the two-terminal exclusion claimed does not hold. -/
theorem terminal_status_both_counterexample :
    dictLookup "akali"
        (apply_status_updates (freshProgress "s" "t0")
          [("akali", ChampionStatus.failed, "t1"),
           ("akali", ChampionStatus.completed, "t2")]).champions =
      some "completed" ∧
    "akali" ∈ (apply_status_updates (freshProgress "s" "t0")
        [("akali", ChampionStatus.failed, "t1"),
         ("akali", ChampionStatus.completed, "t2")]).failed_champions := by
  decide

/-- C4 amended: over any update sequence from a fresh session, an id is in
the failed-items list iff some update marked it `failed`; the list is
never pruned, so an item marked failed and later completed appears in
both, while an item never marked failed is never in the failed list. -/
theorem failed_list_iff_failed_update
    (updates : List (String × ChampionStatus × String)) (sid t0 x : String) :
    x ∈ (apply_status_updates (freshProgress sid t0) updates).failed_champions
      ↔ ∃ ts, (x, ChampionStatus.failed, ts) ∈ updates := by
  rw [mem_failed_apply_updates]
  simp [freshProgress]

/-- C8: persisting a checkpoint with `save_checkpoint` and loading it back
by id returns exactly the persisted record — stage, sub-item list with
flags/checksums, stats, and error all intact (`last_checkpoint` is the
stamp `save_checkpoint` itself wrote).  The hypothesis holds for every
checkpoint the program constructs: `__post_init__` never leaves the stats
dict empty. -/
theorem save_then_load_roundtrip (champion_id ts : String)
    (st : CrawlerState) (cp : ChampionCheckpoint)
    (hid : cp.champion_id = champion_id)
    (hstats : cp.stats.isEmptyDict = false) :
    get_champion_checkpoint (save_checkpoint champion_id cp ts st)
        champion_id = some { cp with last_checkpoint := ts } := by
  rw [get_save_self _ _ _ _ hid, postInitStats_of_ne _ hstats]

/-- A populated checkpoint for the C8 witness. -/
def cpRoundtrip : ChampionCheckpoint :=
  { champion_id := "jinx", champion_name := "Jinx", stage := .downloading,
    audio_files := [{ url := "u", filename := "a.ogg", downloaded := true,
                      checksum := some "abc", file_size := some 5 }],
    stats := { total_files := some 1, downloaded_files := some 1,
               processed_files := some 0, failed_downloads := some 0 },
    last_checkpoint := "t0", error := none }

/-- Witness for C8 on a concrete populated checkpoint. -/
theorem save_then_load_roundtrip_witness :
    get_champion_checkpoint (save_checkpoint "jinx" cpRoundtrip "t1" {})
        "jinx" = some { cpRoundtrip with last_checkpoint := "t1" } :=
  save_then_load_roundtrip "jinx" "t1" {} cpRoundtrip rfl (by decide)

/-- C9: `load_progress` returns the persisted session when the progress
file exists and parses; when the file is absent it creates a session whose
id is derived from the current time and persists it immediately; an
existing-but-unparsable file raises (is a fatal error, never treated as
absent, and no new session is created). -/
theorem load_progress_spec (p : ProgressState) (nowCompact nowIso : String) :
    load_progress (ProgressFile.valid p) nowCompact nowIso =
        .ok (p, .valid p) ∧
    load_progress ProgressFile.corrupt nowCompact nowIso = .error () ∧
    (∃ q : ProgressState,
      load_progress ProgressFile.absent nowCompact nowIso =
          .ok (q, .valid q) ∧
        q.session_id = nowCompact ∧ q.start_time = nowIso) := by
  exact ⟨rfl, rfl, ⟨_, rfl, rfl, rfl⟩⟩

theorem mem_needs_redownload (fs : List (String × String))
    (l : List AudioFile) (fn : String) :
    fn ∈ needs_redownload_list fs l ↔
      ∃ af ∈ l, af.filename = fn ∧ af.downloaded = true ∧
        (dictLookup af.filename fs = none ∨
          (truthy af.checksum = true ∧
            dictLookup af.filename fs ≠ some (af.checksum.getD ""))) := by
  induction l with
  | nil => simp [needs_redownload_list]
  | cons af rest ih =>
    cases hd : af.downloaded with
    | false => simp [needs_redownload_list, hd, ih]
    | true =>
      cases hlk : dictLookup af.filename fs with
      | none =>
        simp [needs_redownload_list, hd, hlk, ih]
        rw [eq_comm]
      | some c =>
        by_cases hc : truthy af.checksum = true
        · by_cases heq : c = af.checksum.getD ""
          · simp [needs_redownload_list, hd, hlk, hc, heq,
              verify_file_integrity, ih]
          · simp [needs_redownload_list, hd, hlk, hc, heq,
              verify_file_integrity, ih]
            rw [eq_comm]
        · simp [needs_redownload_list, hd, hlk, hc,
            verify_file_integrity, ih]

theorem download_loop_attempted (champion_id : String) (fetch : FetchOracle)
    (needs : List String) (ts : String) (l : List AudioFile) :
    ∀ w af, af ∈ (download_loop champion_id fetch needs ts l w).2 →
      ¬(af.downloaded = true ∧ af.filename ∉ needs) := by
  induction l with
  | nil =>
    intro w af h
    simp [download_loop] at h
  | cons hd rest ih =>
    intro w af h
    by_cases hskip : hd.downloaded = true ∧ hd.filename ∉ needs
    · rw [download_loop, if_pos hskip] at h
      exact ih _ _ h
    · rw [download_loop, if_neg hskip] at h
      rcases List.mem_cons.mp h with heq | hrest
      · exact heq ▸ hskip
      · exact ih _ _ hrest

/-- C6: on a download run, the re-fetch queue computed by
`verify_downloads` contains a filename exactly when some previously
fetched sub-item with that name is missing on disk or its on-disk
checksum no longer matches the stored one (queued, not a hard error);
and every sub-item whose downloaded flag is set and which is not in that
queue is skipped by the download loop (never handed to
`download_audio_file`). -/
theorem redownload_queue_spec (w : World) (champion_id : String)
    (cp : ChampionCheckpoint) (fetch : FetchOracle) (ts fn : String)
    (hcp : get_champion_checkpoint w.state champion_id = some cp) :
    (fn ∈ verify_downloads champion_id w.rawFiles w.state ↔
      ∃ af ∈ cp.audio_files, af.filename = fn ∧ af.downloaded = true ∧
        (dictLookup af.filename w.rawFiles = none ∨
          (truthy af.checksum = true ∧
            dictLookup af.filename w.rawFiles ≠
              some (af.checksum.getD "")))) ∧
    (∀ af ∈ cp.audio_files, af.downloaded = true →
      af.filename ∉ verify_downloads champion_id w.rawFiles w.state →
      af ∉ (download_loop champion_id fetch
        (verify_downloads champion_id w.rawFiles w.state) ts
        cp.audio_files w).2) := by
  have hver : verify_downloads champion_id w.rawFiles w.state =
      needs_redownload_list w.rawFiles cp.audio_files := by
    unfold verify_downloads
    rw [hcp]
  constructor
  · rw [hver]
    exact mem_needs_redownload _ _ _
  · intro af hmem hdl hnot hin
    exact download_loop_attempted _ _ _ _ _ _ _ hin ⟨hdl, hnot⟩

/-- A previously fetched sub-item whose file vanished from disk. -/
def afMissing : AudioFile :=
  { url := "um", filename := "miss.ogg", downloaded := true,
    checksum := some "cm", file_size := some 7 }

/-- A previously fetched sub-item whose on-disk checksum still matches. -/
def afGood : AudioFile :=
  { url := "ug", filename := "good.ogg", downloaded := true,
    checksum := some "cg", file_size := some 9 }

/-- Checkpoint for the C6 witness. -/
def cpVerify : ChampionCheckpoint :=
  { champion_id := "vex", champion_name := "Vex", stage := .downloading,
    audio_files := [afMissing, afGood],
    stats := { total_files := some 2, downloaded_files := some 2,
               processed_files := some 0, failed_downloads := some 0 },
    last_checkpoint := "t0", error := none }

/-- World for the C6 witness: only `good.ogg` is on disk, intact. -/
def wVerify : World :=
  { state := { checkpoints := [("vex", cpVerify.to_dict)], progress := none },
    rawFiles := [("good.ogg", "cg")] }

/-- A fetch oracle for witnesses; would fail if ever consulted. -/
def witnessFetch : FetchOracle := fun _ => .error "offline"

/-- Witness for C6 at a concrete store: the vanished file is queued and
the intact file is never re-attempted. -/
theorem redownload_queue_spec_witness :
    ("miss.ogg" ∈ verify_downloads "vex" wVerify.rawFiles wVerify.state ↔
      ∃ af ∈ cpVerify.audio_files, af.filename = "miss.ogg" ∧
        af.downloaded = true ∧
        (dictLookup af.filename wVerify.rawFiles = none ∨
          (truthy af.checksum = true ∧
            dictLookup af.filename wVerify.rawFiles ≠
              some (af.checksum.getD "")))) ∧
    (∀ af ∈ cpVerify.audio_files, af.downloaded = true →
      af.filename ∉ verify_downloads "vex" wVerify.rawFiles wVerify.state →
      af ∉ (download_loop "vex" witnessFetch
        (verify_downloads "vex" wVerify.rawFiles wVerify.state) "t1"
        cpVerify.audio_files wVerify).2) :=
  redownload_queue_spec wVerify "vex" cpVerify witnessFetch "t1" "miss.ogg"
    (by decide)

/-- Sub-items for the 4-file scenario of C1. -/
def scnFiles : List AudioFile :=
  [{ url := "u1", filename := "f1.ogg" },
   { url := "u2", filename := "f2.ogg" },
   { url := "u3", filename := "f3.ogg" },
   { url := "u4", filename := "f4.ogg" }]

/-- Scenario checkpoint: 4 sub-items, stage `downloading`, stats as left
by the scrape step (`total_files = 4`). -/
def scnCheckpoint : ChampionCheckpoint :=
  { champion_id := "testchamp", champion_name := "Test",
    stage := .downloading, audio_files := scnFiles,
    stats := { total_files := some 4, downloaded_files := some 0,
               processed_files := some 0, failed_downloads := some 0 },
    last_checkpoint := "t0", error := none }

/-- Scenario world before the download stage. -/
def scnWorld0 : World :=
  { state := { checkpoints := [("testchamp", scnCheckpoint.to_dict)],
               progress := some (freshProgress "s1" "t0") },
    rawFiles := [] }

/-- Fetch oracle: 3 of the 4 sub-items download, `u4` fails. -/
def scnFetch : FetchOracle := fun url =>
  if url = "u1" then .ok ("c1", 10)
  else if url = "u2" then .ok ("c2", 11)
  else if url = "u3" then .ok ("c3", 12)
  else .error "HTTP 404"

/-- The download stage of the scenario. -/
def scnAfterDownload : World × Bool :=
  download_all_audio "testchamp" scnCheckpoint scnFetch "t1" scnWorld0

/-- Transform oracle: only `f1.ogg` transforms successfully. -/
def scnTransform : TransformOracle := fun af => af.filename = "f1.ogg"

/-- The transform stage of the scenario, run from the checkpoint reloaded
after the download stage (as `cli.py` does). -/
def scnAfterProcess : CrawlerState × Bool :=
  match get_champion_checkpoint scnAfterDownload.1.state "testchamp" with
  | some cp =>
    process_champion_audio "testchamp" cp scnTransform "t2"
      scnAfterDownload.1.state
  | none => (scnAfterDownload.1.state, false)

/-- C1 counterexample: in exactly the claimed scenario (4 sub-items,
fetch succeeds for 3 and fails for 1, then transform succeeds for 1 of
the 3 fetched) the item does advance to `processing` and is then marked
`failed` — but the stored error is "Only 1/4 files processed": the
transform gate divides by `total_files` (4), not by the fetched count
(3), so no error mentioning "1/3" is produced. -/
theorem transform_gate_message_counterexample :
    scnAfterDownload.2 = true ∧
    (get_champion_checkpoint scnAfterDownload.1.state "testchamp").map
        (fun c => c.stage) = some .processing ∧
    (get_champion_checkpoint scnAfterProcess.1 "testchamp").map
        (fun c => (c.stage, c.error)) =
      some (.failed, some "Only 1/4 files processed") ∧
    mentionsStr "Only 1/4 files processed" "1/3" = false := by
  with_unfolding_all decide

/-- C1 amended: same scenario, with the message corrected — the item
advances to `processing` after the download stage, the transform stage
reports failure, and the item is marked `failed` with an error mentioning
"1/4" (`processed / total_files`, i.e. 1 of all 4 sub-items). -/
theorem transform_gate_scenario_amended :
    scnAfterDownload.2 = true ∧
    (get_champion_checkpoint scnAfterDownload.1.state "testchamp").map
        (fun c => c.stage) = some .processing ∧
    scnAfterProcess.2 = false ∧
    (get_champion_checkpoint scnAfterProcess.1 "testchamp").map
        (fun c => (c.stage, c.error)) =
      some (.failed, some "Only 1/4 files processed") ∧
    mentionsStr "Only 1/4 files processed" "1/4" = true := by
  with_unfolding_all decide
